import Mathlib

/-!
Verification of the Live Metric Synchronization & Aggregation Engine of the
smartcity-frontend dashboard (src/smartcity-frontend/src/App.jsx), as a
shallow embedding in Lean 4.

Numeric values are modelled as exact decimal numbers — an integer mantissa
`m` with a power-of-ten scale `e`, denoting `m / 10 ^ e` — together with
the JavaScript specials NaN and ±Infinity (`JsFloat`); `jsParseFloat`
follows the ECMAScript `parseFloat` grammar (skip leading whitespace,
optional sign, either the literal `Infinity` or a decimal mantissa with
optional fraction and exponent, trailing garbage ignored, NaN when no
prefix parses).  The engine only ever compares a parsed value against a
natural-number threshold with strict `>`, which on this representation is
the integer comparison `n * 10 ^ e < m` (cross-multiplication by the
positive denominator `10 ^ e`).
JavaScript objects iterated with `for...in` are modelled as association
lists in insertion order (all keys involved are non-index string keys, for
which ECMAScript guarantees insertion order).

Property reads on plain object literals consult the prototype chain: for a
name that is not an own property, `METRIC_CONFIG[metric]` and
`cityMap[city]` yield the inherited `Object.prototype` member when the name
is one of its members ("constructor", "toString", "__proto__", ...), and
all of those members are truthy.  The embedding models this three-way
outcome explicitly: own property, truthy inherited member, or undefined.
-/

namespace SmartCity

/-- JavaScript number as produced by `parseFloat`: NaN, ±Infinity, or a
finite decimal value `num m e` denoting the exact value `m / 10 ^ e`
(the threshold comparisons in the engine are unaffected by binary
rounding at the values it handles, so the exact decimal is the faithful
model). -/
inductive JsFloat where
  | nan
  | inf
  | negInf
  | num (m : Int) (e : Nat)
deriving DecidableEq, Repr

/-- `x > (n : Nat)` in JavaScript semantics: NaN compares false,
`Infinity > n` is true, `-Infinity > n` is false, and for a finite value
`m / 10 ^ e > n ↔ n * 10 ^ e < m`, multiplying through by the positive
denominator. -/
def JsFloat.gtQ : JsFloat → Nat → Bool
  | .nan, _ => false
  | .inf, _ => true
  | .negInf, _ => false
  | .num m e, n => ((n * 10 ^ e : Nat) : Int) < m

/-- Numeric value of a digit list (most significant first). -/
def digitsToNat (ds : List Char) : Nat :=
  ds.foldl (fun a c => a * 10 + (c.toNat - 48)) 0

/-- Parse an unsigned decimal mantissa: digits, optionally a decimal point
and more digits.  Fails when there is no digit on either side of the
point (e.g. `".e5"`, `"abc"`); `"5."` and `".5"` succeed, as in JS.
Returns the digits' value, the number of fraction digits (the power-of-ten
scale), and the unconsumed characters. -/
def parseMantissa (cs : List Char) : Option (Nat × Nat × List Char) :=
  let intPart := cs.takeWhile Char.isDigit
  let rest1 := cs.dropWhile Char.isDigit
  match rest1 with
  | '.' :: rest2 =>
      let fracPart := rest2.takeWhile Char.isDigit
      let rest3 := rest2.dropWhile Char.isDigit
      if intPart.isEmpty && fracPart.isEmpty then none
      else some (digitsToNat (intPart ++ fracPart), fracPart.length, rest3)
  | _ =>
      if intPart.isEmpty then none
      else some (digitsToNat intPart, 0, rest1)

/-- Apply a trailing exponent part (`e`/`E`, optional sign, digits) to a
scaled mantissa `(m, e)`: a positive exponent `k` multiplies the mantissa
by `10 ^ k`, a negative one adds `k` to the scale; an ill-formed exponent
is trailing garbage and is ignored, as in JS (`parseFloat("1e") = 1`). -/
def applyExponent (me : Nat × Nat) (cs : List Char) : Nat × Nat :=
  match cs with
  | 'e' :: t =>
      let negE := match t with | '-' :: _ => true | _ => false
      let t1 := match t with | '-' :: u => u | '+' :: u => u | _ => t
      let eds := t1.takeWhile Char.isDigit
      if eds.isEmpty then me
      else if negE then (me.1, me.2 + digitsToNat eds)
      else (me.1 * 10 ^ digitsToNat eds, me.2)
  | 'E' :: t =>
      let negE := match t with | '-' :: _ => true | _ => false
      let t1 := match t with | '-' :: u => u | '+' :: u => u | _ => t
      let eds := t1.takeWhile Char.isDigit
      if eds.isEmpty then me
      else if negE then (me.1, me.2 + digitsToNat eds)
      else (me.1 * 10 ^ digitsToNat eds, me.2)
  | _ => me

/-- JavaScript `parseFloat`: skip leading whitespace, optional sign, then
either `Infinity` or a decimal literal; everything after the longest
valid prefix is ignored; NaN when no valid prefix exists. -/
def jsParseFloat (s : String) : JsFloat :=
  let cs := s.data.dropWhile Char.isWhitespace
  let neg := match cs with | '-' :: _ => true | _ => false
  let cs1 := match cs with | '-' :: t => t | '+' :: t => t | _ => cs
  if ("Infinity".data).isPrefixOf cs1 then
    if neg then .negInf else .inf
  else
    match parseMantissa cs1 with
    | none => .nan
    | some (m, e, rest) =>
        let me := applyExponent (m, e) rest
        .num (if neg then -(me.1 : Int) else (me.1 : Int)) me.2

/-- `getStatusColor` from App.jsx lines 28-42: parse the value with
`parseFloat` (`const numValue = parseFloat(value)` is inlined here), return
the neutral color `"#3498db"` on NaN, otherwise run the per-metric
strict-greater-than cascade.  The JS `switch` on the metric string is the
equality chain below. -/
def getStatusColor (metric value : String) : String :=
  if jsParseFloat value = JsFloat.nan then "#3498db"
  else if metric = "temperature" then
    if (jsParseFloat value).gtQ 30 then "#e74c3c"
    else if (jsParseFloat value).gtQ 20 then "#e67e22"
    else "#3498db"
  else if metric = "humidity" then
    if (jsParseFloat value).gtQ 80 then "#3498db"
    else if (jsParseFloat value).gtQ 50 then "#2ecc71"
    else "#f1c40f"
  else if metric = "air_quality" then
    if (jsParseFloat value).gtQ 150 then "#e74c3c"
    else if (jsParseFloat value).gtQ 100 then "#e67e22"
    else "#2ecc71"
  else
    if (jsParseFloat value).gtQ 50 then "#e74c3c"
    else if (jsParseFloat value).gtQ 30 then "#e67e22"
    else "#2ecc71"

/-- The severity bands named by the specification (§4.2, glossary). -/
inductive Band where
  | critical
  | warning
  | nominal
  | info
  | caution
  | neutral
deriving DecidableEq, Repr

/-- Modelled from the spec (§4.2 `severity`): parse the raw value as a
float; neutral on parse failure; otherwise metric-specific
strict-greater-than thresholds evaluated in listed order, first match
wins: temperature >30 critical, >20 warning, else nominal; humidity >80
info, >50 nominal, else caution; air_quality >150 critical, >100 warning,
else nominal; every other metric >50 critical, >30 warning, else
nominal. -/
def severity (metric value : String) : Band :=
  if jsParseFloat value = JsFloat.nan then .neutral
  else if metric = "temperature" then
    if (jsParseFloat value).gtQ 30 then .critical
    else if (jsParseFloat value).gtQ 20 then .warning
    else .nominal
  else if metric = "humidity" then
    if (jsParseFloat value).gtQ 80 then .info
    else if (jsParseFloat value).gtQ 50 then .nominal
    else .caution
  else if metric = "air_quality" then
    if (jsParseFloat value).gtQ 150 then .critical
    else if (jsParseFloat value).gtQ 100 then .warning
    else .nominal
  else
    if (jsParseFloat value).gtQ 50 then .critical
    else if (jsParseFloat value).gtQ 30 then .warning
    else .nominal

/-- The color the source renders each severity band with.  The nominal
band of temperature is drawn `"#3498db"` while the nominal band of every
other metric is drawn `"#2ecc71"`; neutral and info share `"#3498db"`. -/
def bandColor (metric : String) : Band → String
  | .critical => "#e74c3c"
  | .warning => "#e67e22"
  | .info => "#3498db"
  | .caution => "#f1c40f"
  | .neutral => "#3498db"
  | .nominal => if metric = "temperature" then "#3498db" else "#2ecc71"

/-- Display configuration of a metric: icon, unit, and the `gradient`
field that only the fallback configuration carries. -/
structure MetricConfig where
  icon : String
  unitStr : String
  gradient : Option String
deriving DecidableEq, Repr

/-- The own properties of the `METRIC_CONFIG` object literal from App.jsx
lines 5-14: the fixed registry of the eight known metric names; `none`
when the name is not an own property.  The full JS property read,
prototype chain included, is `lookupConfig` below. -/
def METRIC_CONFIG (metric : String) : Option MetricConfig :=
  if metric = "temperature" then some ⟨"🌡️", "°C", none⟩
  else if metric = "humidity" then some ⟨"💧", "%", none⟩
  else if metric = "air_quality" then some ⟨"🌫️", "AQI", none⟩
  else if metric = "energy_consumption" then some ⟨"⚡", "MW", none⟩
  else if metric = "traffic_density" then some ⟨"🚦", "%", none⟩
  else if metric = "waste_level" then some ⟨"🗑️", "%", none⟩
  else if metric = "water_quality" then some ⟨"💦", "PH", none⟩
  else if metric = "noise_level" then some ⟨"🔊", "dB", none⟩
  else none

/-- The fallback used on registry miss in the aggregation loop:
`{...DEFAULT_CONFIG, icon: "📊", unit: ""}` — DEFAULT_CONFIG's gradient
survives the spread, icon and unit are re-stated with the same values. -/
def fallbackConfig : MetricConfig := ⟨"📊", "", some "#3498db"⟩

/-- The member names of `Object.prototype`, inherited by every plain
object literal.  Reading any of them on an object that lacks an own
property of that name yields the inherited member — a function, or for
`__proto__` the prototype object — and every one of these values is
truthy. -/
def objectProtoMembers : List String :=
  ["constructor", "hasOwnProperty", "isPrototypeOf", "propertyIsEnumerable",
   "toLocaleString", "toString", "valueOf", "__proto__",
   "__defineGetter__", "__defineSetter__", "__lookupGetter__",
   "__lookupSetter__"]

/-- Value stored in an entry's `config` field: either a plain config
object (an own registry entry, or the spread fallback), or an inherited
`Object.prototype` member — a function object whose `icon` and `unit`
properties are undefined. -/
inductive JsConfig where
  | obj (cfg : MetricConfig)
  | protoMember (name : String)
deriving DecidableEq, Repr

/-- `METRIC_CONFIG[metric] || {...DEFAULT_CONFIG, icon: "📊", unit: ""}`
(App.jsx lines 205-209): an own property wins; otherwise a name that is
an `Object.prototype` member yields that truthy inherited member, so the
`||` fallback never engages for it; only a read that yields undefined
falls back to the default config. -/
def lookupConfig (metric : String) : JsConfig :=
  match METRIC_CONFIG metric with
  | some cfg => .obj cfg
  | none =>
      if metric ∈ objectProtoMembers then .protoMember metric
      else .obj fallbackConfig

/-- Split a character list at every `':'`; the accumulator holds the
current segment reversed.  `splitColonAux "a:b".data [] = [['a'],['b']]`,
and the empty input yields one empty segment, as JS `"".split(":")`
does. -/
def splitColonAux : List Char → List Char → List (List Char)
  | [], cur => [cur.reverse]
  | c :: rest, cur =>
      if c = ':' then cur.reverse :: splitColonAux rest []
      else splitColonAux rest (c :: cur)

/-- JS `key.split(":")`: segments between colons, in order, empty
segments preserved. -/
def jsSplitColon (s : String) : List String :=
  (splitColonAux s.data []).map List.asString

/-- Key parsing as performed inline in the aggregation loop (App.jsx lines
196-201): `key.split(":")`; skip unless exactly 3 parts; metric is part 1,
city is part 2.  Part 0 (the namespace) is bound to nothing. -/
def parseKey (key : String) : Option (String × String) :=
  match jsSplitColon key with
  | [_, metric, city] => some (metric, city)
  | _ => none

/-- One classified entry of a city group: `{ metric, value, config }` as
pushed in the aggregation loop. -/
structure MetricEntry where
  metric : String
  value : String
  config : JsConfig
deriving DecidableEq, Repr

/-- A raw snapshot: the JSON object mapping key strings to value strings,
as an association list in insertion order. -/
abbrev RawSnapshot := List (String × String)

/-- The city map: `cityName → list of entries`, cities in order of first
appearance, entries appended in scan order. -/
abbrev CityMap := List (String × List MetricEntry)

/-- `if (!cityMap[city]) cityMap[city] = []; cityMap[city].push(e)` on the
own-property path (city name not an `Object.prototype` member, so an
absent group reads as undefined, is initialised, and push succeeds):
append to the city's list, creating the group at the end on first sight
(JS object key insertion order). -/
def pushMetric : CityMap → String → MetricEntry → CityMap
  | [], city, e => [(city, [e])]
  | (c, es) :: rest, city, e =>
      if c = city then (c, es ++ [e]) :: rest
      else (c, es) :: pushMetric rest city e

/-- One iteration of the aggregation loop body for the pair `(key, value)`:
split the key, skip when not 3 parts, look up the config via
`lookupConfig`, push the entry onto the city's group.  When the city name
is an `Object.prototype` member, `!cityMap[city]` sees the truthy
inherited member, the group is never initialised, and
`cityMap[city].push(...)` throws a TypeError that the loop's catch clause
swallows — the entry is silently dropped and the map is unchanged. -/
def aggregateStep (cityMap : CityMap) (kv : String × String) : CityMap :=
  match parseKey kv.1 with
  | none => cityMap
  | some (metric, city) =>
      if city ∈ objectProtoMembers then cityMap
      else pushMetric cityMap city ⟨metric, kv.2, lookupConfig metric⟩

/-- The `cities` aggregation (App.jsx lines 189-221): fold the loop body
over the snapshot in iteration order.  The `!data || keys.length === 0`
guard returns `{}`, which coincides with folding over the empty list.
The only throwing operation in the try block is the push onto an
inherited `Object.prototype` member (modelled inside `aggregateStep`);
its TypeError is caught and only logged. -/
def aggregate (data : RawSnapshot) : CityMap :=
  data.foldl aggregateStep []

/-- The `stats` memo (App.jsx lines 234-239): `cityCount` = number of city
keys, `metricCount` = reduce of group lengths. -/
structure Stats where
  cityCount : Nat
  metricCount : Nat
deriving DecidableEq, Repr

def stats (cities : CityMap) : Stats :=
  { cityCount := cities.length
    metricCount := cities.foldl (fun acc g => acc + g.2.length) 0 }

/-- The empty check used by the render path and named `isEmpty` by the
spec's ViewModelProjector: `Object.keys(cities).length === 0`. -/
def citiesIsEmpty (cities : CityMap) : Bool :=
  cities.length == 0

/-- The mock dataset from the fetch catch handler (App.jsx lines 146-156),
in source order. -/
def mockData : RawSnapshot :=
  [("smartcity:temperature:NewYork", "22.5"),
   ("smartcity:humidity:NewYork", "65"),
   ("smartcity:air_quality:NewYork", "45"),
   ("smartcity:temperature:London", "18.3"),
   ("smartcity:humidity:London", "72"),
   ("smartcity:traffic_density:London", "34"),
   ("smartcity:temperature:Tokyo", "25.7"),
   ("smartcity:humidity:Tokyo", "58"),
   ("smartcity:energy_consumption:Tokyo", "234")]

/-- The engine state owned by the component: the raw snapshot and the
loading flag. -/
structure AppState where
  data : RawSnapshot
  isLoading : Bool
deriving DecidableEq, Repr

/-- The catch handler of `fetchAllData` (App.jsx lines 141-158): on fetch
failure it runs `setIsLoading(false)` and `setData(mockData)`.  It is a
total function of the prior state: no exception escapes the handler. -/
def fetchFailure (_s : AppState) : AppState :=
  { data := mockData, isLoading := false }

/-- The success path of `fetchAllData` (lines 136-140): store the fetched
snapshot and clear the loading flag. -/
def fetchSuccess (json : RawSnapshot) (_s : AppState) : AppState :=
  { data := json, isLoading := false }

/-- Pending `setTimeout` fetch timers, identified by their fire times in
milliseconds. -/
structure TimerState where
  pending : List Nat
deriving DecidableEq, Repr

/-- `debouncedFetchAllData` (App.jsx lines 162-165) as invoked by the
update listener (lines 172-176): `setTimeout(fetchAllData, 1000)`
schedules a fetch 1000 ms from now; the `() => clearTimeout(timeoutId)`
closure it returns is discarded by the caller, so no previously pending
timer is ever canceled. -/
def debouncedFetchAllData (now : Nat) (s : TimerState) : TimerState :=
  { pending := s.pending ++ [now + 1000] }

/-- Deliver a burst of update notifications at the given times: each one
runs the update listener, which calls `debouncedFetchAllData`. -/
def onUpdateNotifications (times : List Nat) : TimerState :=
  times.foldl (fun s t => debouncedFetchAllData t s) ⟨[]⟩

/-- The push-channel connection state of the second App variant's effect
(App.jsx lines 383-410): whether the EventSource is open, and the
period of the polling `setInterval` when one is installed. -/
structure LiveConnState where
  esOpen : Bool
  pollIntervalMs : Option Nat
deriving DecidableEq, Repr

/-- Effect setup (second variant, lines 388-409): `new EventSource(...)`
either succeeds — channel open, no interval — or throws synchronously, in
which case the catch installs `setInterval(fetchAllData, 10000)` and no
channel is open. -/
def setupLive (ctorThrows : Bool) : LiveConnState :=
  if ctorThrows then { esOpen := false, pollIntervalMs := some 10000 }
  else { esOpen := true, pollIntervalMs := none }

/-- The `onerror` handler (lines 396-399, and 178-181 of the first
variant): `eventSource.close()` and nothing else — no new EventSource, no
timer. -/
def onTransportError (s : LiveConnState) : LiveConnState :=
  { s with esOpen := false }

/-- Resources of the first App variant's effect (lines 167-186): the
EventSource, plus the fire times of pending debounce timers whose
cancel closures were discarded. -/
structure EngineResources where
  esOpen : Bool
  debounceTimers : List Nat
deriving DecidableEq, Repr

/-- State right after the effect body ran: EventSource opened, no timer
pending. -/
def engineStart : EngineResources := ⟨true, []⟩

/-- The `"update"` listener (lines 172-176): calls
`debouncedFetchAllData()`, adding a timer that fires 1000 ms later; the
returned cancel closure is discarded. -/
def onUpdateEvent (now : Nat) (s : EngineResources) : EngineResources :=
  { s with debounceTimers := s.debounceTimers ++ [now + 1000] }

/-- The effect cleanup (lines 183-185): `eventSource.close()` only — it
holds no reference to any pending timeout and clears none. -/
def unmountCleanup (s : EngineResources) : EngineResources :=
  { s with esOpen := false }


/-- Entries reachable from a city map: `(c, es) ∈ m` and `x ∈ es`. -/
def entryIn (m : CityMap) (c : String) (x : MetricEntry) : Prop :=
  ∃ es, (c, es) ∈ m ∧ x ∈ es

theorem entryIn_pushMetric {m : CityMap} {city : String} {e : MetricEntry}
    {c : String} {x : MetricEntry} (h : entryIn (pushMetric m city e) c x) :
    entryIn m c x ∨ (c = city ∧ x = e) := by
  induction m with
  | nil =>
      obtain ⟨es, hm, hx⟩ := h
      simp only [pushMetric, List.mem_singleton, Prod.mk.injEq] at hm
      obtain ⟨rfl, rfl⟩ := hm
      simp only [List.mem_singleton] at hx
      exact Or.inr ⟨rfl, hx⟩
  | cons hd tl ih =>
      obtain ⟨es, hm, hx⟩ := h
      obtain ⟨c0, es0⟩ := hd
      simp only [pushMetric] at hm
      by_cases hc : c0 = city
      · simp only [hc, if_true, List.mem_cons, Prod.mk.injEq] at hm
        rcases hm with ⟨h1, h2⟩ | hm
        · subst h2
          rcases List.mem_append.mp hx with hx' | hx'
          · refine Or.inl ⟨es0, ?_, hx'⟩
            rw [h1, ← hc]
            exact List.mem_cons_self _ _
          · simp only [List.mem_singleton] at hx'
            exact Or.inr ⟨h1, hx'⟩
        · exact Or.inl ⟨es, List.mem_cons_of_mem _ hm, hx⟩
      · simp only [if_neg hc, List.mem_cons, Prod.mk.injEq] at hm
        rcases hm with ⟨h1, h2⟩ | hm
        · subst h1; subst h2
          exact Or.inl ⟨es, List.mem_cons_self _ _, hx⟩
        · rcases ih ⟨es, hm, hx⟩ with h' | h'
          · obtain ⟨es', hm', hx'⟩ := h'
            exact Or.inl ⟨es', List.mem_cons_of_mem _ hm', hx'⟩
          · exact Or.inr h'

/-- Fold invariant: a predicate holding of every entry of the accumulator
and of every entry any pair of the remaining data can contribute holds of
every entry of the fold's result. -/
theorem aggregate_fold_inv (C : String → MetricEntry → Prop) :
    ∀ (data : RawSnapshot) (acc : CityMap),
      (∀ c x, entryIn acc c x → C c x) →
      (∀ k v metric city, (k, v) ∈ data → parseKey k = some (metric, city) →
        C city ⟨metric, v, lookupConfig metric⟩) →
      ∀ c x, entryIn (data.foldl aggregateStep acc) c x → C c x := by
  intro data
  induction data with
  | nil => intro acc hacc _ c x hx; exact hacc c x hx
  | cons kv rest ih =>
      intro acc hacc hdata c x hx
      simp only [List.foldl_cons] at hx
      refine ih (aggregateStep acc kv) ?_ ?_ c x hx
      · intro c' x' hx'
        unfold aggregateStep at hx'
        rcases hpk : parseKey kv.1 with _ | ⟨metric, city⟩
        · rw [hpk] at hx'; exact hacc c' x' hx'
        · simp only [hpk] at hx'
          by_cases hcity : city ∈ objectProtoMembers
          · rw [if_pos hcity] at hx'
            exact hacc c' x' hx'
          · rw [if_neg hcity] at hx'
            rcases entryIn_pushMetric hx' with h' | ⟨rfl, rfl⟩
            · exact hacc c' x' h'
            · exact hdata kv.1 kv.2 metric c'
                (by rw [Prod.mk.eta]; exact List.mem_cons_self _ _) hpk
      · intro k v metric city hkv hpk
        exact hdata k v metric city (List.mem_cons_of_mem _ hkv) hpk

end SmartCity

namespace SmartCity

/-- C1: for every metric name and raw value, `getStatusColor` is exactly
the rendering of the spec's severity classification: parse first, neutral
on failure, then strict-greater-than thresholds in listed order with first
match winning; the stated examples hold and the boundary value 30 for
temperature falls to the warning band. -/
theorem c1_severity_classification :
    (∀ metric value, getStatusColor metric value = bandColor metric (severity metric value))
    ∧ severity "temperature" "31" = Band.critical
    ∧ severity "temperature" "25" = Band.warning
    ∧ severity "temperature" "10" = Band.nominal
    ∧ severity "temperature" "30" = Band.warning
    ∧ severity "humidity" "85" = Band.info
    ∧ severity "humidity" "60" = Band.nominal
    ∧ severity "humidity" "50" = Band.caution
    ∧ severity "air_quality" "151" = Band.critical
    ∧ severity "air_quality" "120" = Band.warning
    ∧ severity "air_quality" "100" = Band.nominal
    ∧ severity "noise_level" "51" = Band.critical
    ∧ severity "noise_level" "40" = Band.warning
    ∧ severity "noise_level" "30" = Band.nominal := by
  refine ⟨fun metric value => ?_, ?_, ?_, ?_, ?_, ?_, ?_, ?_, ?_, ?_, ?_, ?_, ?_, ?_⟩
  · unfold getStatusColor severity bandColor
    split_ifs <;> simp_all
  all_goals decide

/-- C2: the two-entry NewYork snapshot aggregates to exactly one city
group, "NewYork", holding the temperature entry first and the humidity
entry second (order of first appearance in the scan), and the projected
stats are metricCount = 2, cityCount = 1, isEmpty = false. -/
theorem c2_newyork_snapshot :
    aggregate [("smartcity:temperature:NewYork", "22.5"),
               ("smartcity:humidity:NewYork", "65")]
      = [("NewYork",
          [⟨"temperature", "22.5", JsConfig.obj ⟨"🌡️", "°C", none⟩⟩,
           ⟨"humidity", "65", JsConfig.obj ⟨"💧", "%", none⟩⟩])]
    ∧ stats (aggregate [("smartcity:temperature:NewYork", "22.5"),
                        ("smartcity:humidity:NewYork", "65")])
        = ⟨1, 2⟩
    ∧ citiesIsEmpty (aggregate [("smartcity:temperature:NewYork", "22.5"),
                                ("smartcity:humidity:NewYork", "65")])
        = false := by
  refine ⟨by decide, by decide, by decide⟩

theorem aggregateStep_skip {k : String} (v : String) (acc : CityMap)
    (h : parseKey k = none) : aggregateStep acc (k, v) = acc := by
  simp [aggregateStep, h]

/-- Match-shape analysis of `parseKey`: none exactly when the split does
not have three segments. -/
theorem parseKey_none_iff (key : String) :
    parseKey key = none ↔ (jsSplitColon key).length ≠ 3 := by
  unfold parseKey
  rcases jsSplitColon key with _ | ⟨a, _ | ⟨b, _ | ⟨c, _ | ⟨d, rest⟩⟩⟩⟩ <;> simp

/-- C3 counterexample: the 3-segment key `":temperature:NewYork"` has an
empty namespace segment, yet `parse` accepts it and the pair contributes
an entry to the aggregated output — segment 0 is not validated for
presence. -/
theorem c3_empty_namespace_accepted :
    parseKey ":temperature:NewYork" = some ("temperature", "NewYork")
    ∧ aggregate [(":temperature:NewYork", "22.5")]
        = [("NewYork",
            [⟨"temperature", "22.5", JsConfig.obj ⟨"🌡️", "°C", none⟩⟩])] := by
  exact ⟨by decide, by decide⟩

/-- C3 amended: key parsing splits on `:` and returns none exactly when
the segment count is not 3; dropped pairs contribute nothing to the
aggregated output; every 3-segment key — including one whose namespace
segment is empty — yields the pair (segment 1, segment 2); segment 0 is
never inspected. -/
theorem c3_parse_structure (key : String) :
    (parseKey key = none ↔ (jsSplitColon key).length ≠ 3)
    ∧ (∀ ns metric city, jsSplitColon key = [ns, metric, city] →
        parseKey key = some (metric, city))
    ∧ (parseKey key = none → ∀ v pre post,
        aggregate (pre ++ (key, v) :: post) = aggregate (pre ++ post)) := by
  refine ⟨parseKey_none_iff key, ?_, ?_⟩
  · intro ns metric city hsplit
    unfold parseKey
    rw [hsplit]
  · intro h v pre post
    unfold aggregate
    rw [List.foldl_append, List.foldl_cons, aggregateStep_skip v _ h,
        List.foldl_append]

theorem c3_parse_structure_witness :
    parseKey "smartcity:temperature:NewYork" = some ("temperature", "NewYork")
    ∧ aggregate [("badkey", "1"), ("smartcity:temperature:NewYork", "5")]
        = aggregate [("smartcity:temperature:NewYork", "5")] := by
  constructor
  · exact (c3_parse_structure "smartcity:temperature:NewYork").2.1
      "smartcity" "temperature" "NewYork" (by decide)
  · exact (c3_parse_structure "badkey").2.2 (by decide) "1" []
      [("smartcity:temperature:NewYork", "5")]

/-- C4 counterexample: two metric names outside the fixed registry refute
the claim that every such entry gets the default classification and is
never dropped.  The metric name `"toString"` is not in the registry, yet
`METRIC_CONFIG["toString"]` yields the truthy inherited
`Object.prototype.toString`, the `||` fallback never engages, and the
entry is classified with that inherited member instead of the default
config.  And the entry for the non-registry metric `"unknown_metric"`
under the city `"toString"` is dropped outright: `!cityMap["toString"]`
sees the truthy inherited member, the group is never initialised, and the
push throws a TypeError that the loop's catch swallows. -/
theorem c4_proto_member_not_default :
    "toString" ∉ (["temperature", "humidity", "air_quality",
                   "energy_consumption", "traffic_density", "waste_level",
                   "water_quality", "noise_level"] : List String)
    ∧ lookupConfig "toString" = JsConfig.protoMember "toString"
    ∧ lookupConfig "toString" ≠ JsConfig.obj fallbackConfig
    ∧ aggregate [("smartcity:toString:NewYork", "60")]
        = [("NewYork", [⟨"toString", "60", JsConfig.protoMember "toString"⟩])]
    ∧ aggregate [("smartcity:unknown_metric:toString", "60")] = [] := by
  refine ⟨by decide, by decide, by decide, by decide, by decide⟩

/-- C4 amended: an entry whose metric name is outside the fixed registry
and is not an `Object.prototype` member name, under a city name that is
not an `Object.prototype` member name either, is not dropped: its
registry lookup misses, the `||` fallback engages, and aggregation
produces a classified metric carrying the fallback configuration (icon
"📊", empty unit).  For a metric name that is an `Object.prototype`
member the entry keeps the truthy inherited member instead of the
default config, and for such a city name the entry is silently dropped.
The default severity rule applies to non-registry metrics, as the
`"unknown_metric"` examples show. -/
theorem c4_unknown_metric_default :
    (∀ k v metric city, parseKey k = some (metric, city) →
      metric ∉ (["temperature", "humidity", "air_quality",
                 "energy_consumption", "traffic_density", "waste_level",
                 "water_quality", "noise_level"] : List String) →
      metric ∉ objectProtoMembers →
      city ∉ objectProtoMembers →
      METRIC_CONFIG metric = none
      ∧ lookupConfig metric = JsConfig.obj fallbackConfig
      ∧ aggregate [(k, v)]
          = [(city, [⟨metric, v, JsConfig.obj fallbackConfig⟩])])
    ∧ fallbackConfig.icon = "📊" ∧ fallbackConfig.unitStr = ""
    ∧ severity "unknown_metric" "60" = Band.critical
    ∧ severity "unknown_metric" "40" = Band.warning
    ∧ severity "unknown_metric" "10" = Band.nominal
    ∧ getStatusColor "unknown_metric" "60" = "#e74c3c"
    ∧ getStatusColor "unknown_metric" "40" = "#e67e22"
    ∧ getStatusColor "unknown_metric" "10" = "#2ecc71" := by
  refine ⟨?_, rfl, rfl, by decide, by decide, by decide, by decide, by decide,
          by decide⟩
  intro k v metric city hpk hmem hmp hcp
  have hcfg : METRIC_CONFIG metric = none := by
    unfold METRIC_CONFIG
    split_ifs <;> simp_all
  have hlook : lookupConfig metric = JsConfig.obj fallbackConfig := by
    unfold lookupConfig
    rw [hcfg, if_neg hmp]
  refine ⟨hcfg, hlook, ?_⟩
  simp [aggregate, aggregateStep, hpk, hcp, hlook, pushMetric]

theorem c4_unknown_metric_default_witness :
    METRIC_CONFIG "unknown_metric" = none
    ∧ lookupConfig "unknown_metric" = JsConfig.obj fallbackConfig
    ∧ aggregate [("smartcity:unknown_metric:Paris", "60")]
        = [("Paris", [⟨"unknown_metric", "60", JsConfig.obj fallbackConfig⟩])] := by
  exact c4_unknown_metric_default.1 "smartcity:unknown_metric:Paris" "60"
    "unknown_metric" "Paris" (by decide) (by decide) (by decide) (by decide)

/-- C5: a raw value that does not parse as a float classifies to the
neutral/default color (spec band: neutral) for every metric, and every
classified metric in the aggregated output carries some input pair's
value verbatim (the value string is stored unmodified). -/
theorem c5_non_numeric_fallback :
    (∀ metric value, jsParseFloat value = JsFloat.nan →
      getStatusColor metric value = "#3498db"
      ∧ severity metric value = Band.neutral)
    ∧ (∀ (data : RawSnapshot) (c : String) (x : MetricEntry),
        entryIn (aggregate data) c x →
        ∃ k, (k, x.value) ∈ data ∧ parseKey k = some (x.metric, c)) := by
  constructor
  · intro metric value h
    constructor <;> simp [getStatusColor, severity, h]
  · intro data c x hx
    refine aggregate_fold_inv
      (fun c x => ∃ k, (k, x.value) ∈ data ∧ parseKey k = some (x.metric, c))
      data [] ?_ ?_ c x hx
    · intro c' x' hx'
      obtain ⟨es, hes, _⟩ := hx'
      simp at hes
    · intro k v metric city hkv hpk
      exact ⟨k, hkv, hpk⟩

theorem c5_non_numeric_fallback_witness :
    (getStatusColor "temperature" "abc" = "#3498db"
      ∧ severity "temperature" "abc" = Band.neutral)
    ∧ ∃ k, (k, "abc") ∈ ([("smartcity:temperature:NewYork", "abc")] : RawSnapshot)
        ∧ parseKey k = some ("temperature", "NewYork") := by
  constructor
  · exact c5_non_numeric_fallback.1 "temperature" "abc" (by decide)
  · exact c5_non_numeric_fallback.2
      [("smartcity:temperature:NewYork", "abc")] "NewYork"
      ⟨"temperature", "abc", JsConfig.obj ⟨"🌡️", "°C", none⟩⟩
      ⟨[⟨"temperature", "abc", JsConfig.obj ⟨"🌡️", "°C", none⟩⟩],
       by decide, by decide⟩

/-- C6: the fetch-failure handler is total (no exception escapes) and
settles every prior state into loading = false with the fixed, build-time
mock dataset, whose aggregation yields exactly the three city groups
NewYork, London, Tokyo, in that order — the dashboard is never left
without data. -/
theorem c6_initial_fetch_failure_fallback :
    (∀ s : AppState, fetchFailure s = ⟨mockData, false⟩
      ∧ (fetchFailure s).isLoading = false)
    ∧ (aggregate mockData).map Prod.fst = ["NewYork", "London", "Tokyo"]
    ∧ stats (aggregate mockData) = ⟨3, 9⟩
    ∧ citiesIsEmpty (aggregate mockData) = false := by
  exact ⟨fun s => ⟨rfl, rfl⟩, by decide, by decide, by decide⟩

/-- C7: the code evaluated at the claim's scenario.  Each update
notification appends its own 1000 ms timer and the cancel closure
returned by `debouncedFetchAllData` is discarded, so a burst never
collapses: three notifications at t = 0, 100, 200 leave three pending
fetch timers, firing at 1000, 1100, 1200 — not the single fetch at
~1200 the claim requires; in general one fetch is scheduled per
notification. -/
theorem c7_no_debounce_three_timers :
    onUpdateNotifications [0, 100, 200] = ⟨[1000, 1100, 1200]⟩
    ∧ (onUpdateNotifications [0, 100, 200]).pending.length = 3
    ∧ (onUpdateNotifications [0, 100, 200]).pending.length ≠ 1
    ∧ ∀ times : List Nat,
        (onUpdateNotifications times).pending.length = times.length := by
  refine ⟨rfl, rfl, by decide, ?_⟩
  intro times
  have h : ∀ (ts : List Nat) (s : TimerState),
      (ts.foldl (fun s t => debouncedFetchAllData t s) s).pending.length
        = s.pending.length + ts.length := by
    intro ts
    induction ts with
    | nil => intro s; simp
    | cons t rest ih =>
        intro s
        rw [List.foldl_cons, ih]
        simp only [debouncedFetchAllData, List.length_append,
          List.length_cons, List.length_nil]
        omega
  simpa [onUpdateNotifications] using h times ⟨[]⟩

/-- C8 counterexample: run the effect with a successfully opened push
channel, then deliver a transport error.  The `onerror` handler only
closes the channel; the resulting state holds no polling interval, so no
poll fetch ever occurs — contradicting the claim that the engine falls
back to 10-second polling after a transport error. -/
theorem c8_no_poll_after_transport_error :
    (onTransportError (setupLive false)).pollIntervalMs = none
    ∧ (onTransportError (setupLive false)).pollIntervalMs ≠ some 10000 := by
  exact ⟨rfl, by decide⟩

/-- C8 amended: after a push-channel transport error the channel is
closed and never reopened (the handler installs nothing that could reopen
it), but no polling fallback is started by the error either: the handler
leaves the interval state untouched.  The 10-second polling interval
exists only on the setup path where constructing the EventSource throws
synchronously; a successful setup installs none. -/
theorem c8_transport_error_closes_only (s : LiveConnState) :
    (onTransportError s).esOpen = false
    ∧ (onTransportError s).pollIntervalMs = s.pollIntervalMs
    ∧ setupLive false = ⟨true, none⟩
    ∧ setupLive true = ⟨false, some 10000⟩ := by
  exact ⟨rfl, rfl, rfl, rfl⟩

/-- C9: the code evaluated at the claim's scenario.  The unmount cleanup
runs `eventSource.close()` only; it cancels no timer, because the
`clearTimeout` closures were discarded when the update listener called
`debouncedFetchAllData`.  After one update notification at t = 0 and an
immediate unmount, the push channel is closed but a debounce timer due at
t = 1000 is still pending and will fire into the torn-down engine —
contradicting the claim that no timer fires after shutdown.  In general
cleanup leaves every pending timer in place. -/
theorem c9_cleanup_leaks_debounce_timer :
    (unmountCleanup (onUpdateEvent 0 engineStart)).esOpen = false
    ∧ (unmountCleanup (onUpdateEvent 0 engineStart)).debounceTimers = [1000]
    ∧ (unmountCleanup (onUpdateEvent 0 engineStart)).debounceTimers ≠ []
    ∧ ∀ s : EngineResources, (unmountCleanup s).debounceTimers = s.debounceTimers := by
  exact ⟨rfl, rfl, by decide, fun s => rfl⟩

/-- C10: the neutral color of a non-numeric value, the color of the
temperature nominal band (numeric values not exceeding 20), and the color
of the humidity info band (values exceeding 80) are all the same string
`"#3498db"` — the engine's output cannot distinguish these three
severity bands. -/
theorem c10_neutral_nominal_info_collide (m v1 v2 v3 : String)
    (h1 : jsParseFloat v1 = JsFloat.nan)
    (h2 : jsParseFloat v2 ≠ JsFloat.nan)
    (h3 : (jsParseFloat v2).gtQ 20 = false)
    (h4 : (jsParseFloat v3).gtQ 80 = true) :
    getStatusColor m v1 = "#3498db"
    ∧ getStatusColor "temperature" v2 = "#3498db"
    ∧ getStatusColor "humidity" v3 = "#3498db"
    ∧ severity m v1 = Band.neutral
    ∧ severity "temperature" v2 = Band.nominal
    ∧ severity "humidity" v3 = Band.info := by
  have h30 : (jsParseFloat v2).gtQ 30 = false := by
    cases hv : jsParseFloat v2 with
    | nan => rfl
    | inf =>
        rw [hv] at h3
        simp [JsFloat.gtQ] at h3
    | negInf => rfl
    | num mv ev =>
        rw [hv] at h3
        simp only [JsFloat.gtQ, decide_eq_false_iff_not] at h3 ⊢
        intro h
        refine h3 (lt_of_le_of_lt ?_ h)
        have hmono : (20 * 10 ^ ev : Nat) ≤ (30 * 10 ^ ev : Nat) :=
          Nat.mul_le_mul_right _ (by norm_num)
        exact_mod_cast hmono
  have hnan3 : jsParseFloat v3 ≠ JsFloat.nan := by
    intro h
    rw [h] at h4
    simp [JsFloat.gtQ] at h4
  refine ⟨?_, ?_, ?_, ?_, ?_, ?_⟩
  · simp [getStatusColor, h1]
  · simp [getStatusColor, h2, h30, h3]
  · simp [getStatusColor, hnan3, h4]
  · simp [severity, h1]
  · simp [severity, h2, h30, h3]
  · simp [severity, hnan3, h4]

theorem c10_neutral_nominal_info_collide_witness :
    getStatusColor "noise_level" "abc" = "#3498db"
    ∧ getStatusColor "temperature" "15" = "#3498db"
    ∧ getStatusColor "humidity" "92.5" = "#3498db"
    ∧ severity "noise_level" "abc" = Band.neutral
    ∧ severity "temperature" "15" = Band.nominal
    ∧ severity "humidity" "92.5" = Band.info := by
  exact c10_neutral_nominal_info_collide "noise_level" "abc" "15" "92.5"
    (by decide) (by decide) (by decide) (by decide)

end SmartCity
